import Mathlib

/-!
Shallow embedding of the instance-redeployment route
(src/routes/Instance/InstanceReDeploy.js) and proofs about it.

The key-value store and the remote node agent are external collaborators;
every external interaction (db.get, db.set, the three HTTP calls, audit
logging) is modelled by an oracle field in an environment record for the
outcome, and by an explicit effect trace for what was issued.  Pure
JavaScript fragments (the validator, the port-mapping translation, the
payload construction, the list reconciliation) are translated directly
into Lean functions.
-/

/-! ## JavaScript primitives -/

/-- Falsiness of a possibly-absent string value: undefined and the empty
string are falsy, every other string is truthy. -/
def jsFalsyOpt : Option String → Bool
  | none => true
  | some s => s == ""

/-- Longest prefix of decimal digit characters. -/
def leadingDigits (cs : List Char) : List Char := cs.takeWhile Char.isDigit

/-- Decimal value of a digit-character list. -/
def digitsToNat (cs : List Char) : Nat :=
  cs.foldl (fun a c => a * 10 + (c.toNat - 48)) 0

/-- Parse a leading run of decimal digits; none when there is no digit. -/
def parseDigits (cs : List Char) : Option Nat :=
  let d := leadingDigits cs
  if d.isEmpty then none else some (digitsToNat d)

/-- Model of JavaScript parseInt: skip leading whitespace, read an optional
sign, then a leading run of decimal digits; no digit means NaN (none).
Radix prefixes such as 0x are not modelled; no input in this development
uses them. -/
def jsParseInt (s : String) : Option Int :=
  let cs := s.data.dropWhile Char.isWhitespace
  if cs.head? = some '-' then (parseDigits (cs.drop 1)).map (fun n => -(n : Int))
  else if cs.head? = some '+' then (parseDigits (cs.drop 1)).map (fun n => (n : Int))
  else (parseDigits cs).map (fun n => (n : Int))

/-- JavaScript object property assignment obj[k] = v on an insertion-ordered
object modelled as an association list: overwrite in place when the key is
present, append otherwise. -/
def jsObjSet (m : List (String × α)) (k : String) (v : α) : List (String × α) :=
  if m.any (fun p => p.1 == k) then
    m.map (fun p => if p.1 == k then (k, v) else p)
  else m ++ [(k, v)]

/-- JavaScript object property read obj[k]. -/
def jsObjGet (m : List (String × α)) (k : String) : Option α :=
  (m.find? (fun p => p.1 == k)).map Prod.snd

/-- JavaScript String.split with a one-character separator, written as a
structural recursion so that it reduces inside the kernel. -/
def splitOnCharAux (sep : Char) : List Char → List Char → List (List Char)
  | acc, [] => [acc.reverse]
  | acc, c :: rest =>
    if c = sep then acc.reverse :: splitOnCharAux sep [] rest
    else splitOnCharAux sep (c :: acc) rest

/-- s.split(sep) for a one-character separator. -/
def jsSplit (s : String) (sep : Char) : List String :=
  (splitOnCharAux sep [] s.data).map String.mk

/-- Model of the regex fragment backslash-d-plus : digits, one or more. -/
def isDigitStr (s : String) : Bool := !s.data.isEmpty && s.data.all Char.isDigit

/-- One host:container token of the port string, as matched by the
validator regex: exactly one colon, digits on both sides. -/
def isPortPair (s : String) : Bool :=
  match jsSplit s ':' with
  | [h, c] => isDigitStr h && isDigitStr c
  | _ => false

/-- Model of the validator regex for the ports parameter: one or more
comma-separated host:container digit pairs, nothing else.  The empty
string fails (its single comma-token is not a pair). -/
def portRegexTest (s : String) : Bool := (jsSplit s ',').all isPortPair

/-- Model of the image regex: first substring of the form an opening
parenthesis, one or more characters none of which is a closing
parenthesis, then a closing parenthesis; returns the captured group. -/
def extractParenAux : List Char → Option (List Char)
  | [] => none
  | c :: rest =>
    if c = '(' then
      let inner := rest.takeWhile (fun d => d ≠ ')')
      if inner.isEmpty then extractParenAux rest
      else
        match rest.drop inner.length with
        | ')' :: _ => some inner
        | _ => extractParenAux rest
    else extractParenAux rest

/-- image.match of the parenthesized-name regex, capture group 1. -/
def extractParen (s : String) : Option String :=
  (extractParenAux s.data).map (fun cs => String.mk cs)

/-! ## Data model -/

/-- Node record as read from the nodeId_node key: what the route uses. -/
structure NodeRec where
  address : String
  port : String
  apiKey : String
deriving DecidableEq, Repr

/-- Image catalog entry from the images key.  Scripts and AltImages may be
absent on the raw object (defaulted with a JavaScript or-else). -/
structure ImageRec where
  Image : String
  Scripts : Option (List String)
  AltImages : Option (List String)
deriving DecidableEq, Repr

/-- Opaque image metadata blob; objects are always truthy in JavaScript. -/
inductive Blob where
  | emptyObj
  | blob (s : String)
deriving DecidableEq, Repr

/-- The Node field of a fetched instance record; its id may be absent. -/
structure InputNode where
  id : Option String
deriving DecidableEq, Repr

/-- The fields of the fetched id_instance record that the route reads.
Node may be absent (reading .id of it then raises a TypeError); Env is
none when the stored value is not array-shaped. -/
structure InputInstance where
  Node : Option InputNode
  ContainerId : String
  Env : Option (List String)
  imageData : Option Blob
deriving DecidableEq, Repr

/-- Body of a successful remote redeploy response: the fields read. -/
structure RemoteResponse where
  containerId : String
  volumeId : String
deriving DecidableEq, Repr

/-- The authoritative instance record written by the persistence update. -/
structure StoredInstance where
  Name : String
  Id : String
  Node : NodeRec
  User : String
  ContainerId : String
  VolumeId : String
  Memory : Option Int
  Cpu : Option Int
  Ports : String
  Primary : String
  Env : List String
  Image : String
  AltImages : List String
  imageData : Blob
  LastUpdated : String
deriving DecidableEq, Repr

/-! ## Effects and envelopes -/

/-- One audit-log record: actor, event tag, source ip, metadata fields. -/
structure AuditEvent where
  userId : String
  username : String
  action : String
  ip : String
  instanceId : Option String := none
  nodeId : Option String := none
  newContainerId : Option String := none
  errMsg : Option String := none
deriving DecidableEq, Repr

/-- A value written to the key-value store by this route. -/
inductive StoreVal where
  | instList (l : List StoredInstance)
  | one (v : StoredInstance)
deriving DecidableEq, Repr

/-- Externally observable actions of one run, in issue order. -/
inductive Effect where
  | dbGet (key : String)
  | dbSet (key : String) (v : StoreVal)
  | audit (e : AuditEvent)
  | httpGet (address : String) (cid : String)
  | httpPost (address : String) (cid : String)
  | httpDelete (address : String) (cid : String)
deriving DecidableEq, Repr

/-- Whether a trace contains any store write. -/
def hasDbSet (l : List Effect) : Bool :=
  l.any fun e => match e with
    | .dbSet _ _ => true
    | _ => false

/-- Responses the route can send. -/
inductive RouteResponse where
  | redirect (status : Nat) (location : String)
  | jsonError (status : Nat) (error : String) (details : String)
  | jsonSuccess (status : Nat) (message : String)
      (containerId : String) (volumeId : String) (instanceId : String)
deriving DecidableEq, Repr

/-- Engine message for reading .filter of an undefined list value. -/
def jsTypeErrorFilter : String := "TypeError: cannot read filter of undefined"

/-- Engine message for reading .id of an undefined Node value. -/
def jsTypeErrorId : String := "TypeError: cannot read id of undefined"

/-! ## Input validator (validateRedeploymentParams) -/

/-- Outcome of the validator middleware: an error response, or next(). -/
inductive ValidationResult where
  | missingInstanceId
  | missingParams (missing : List String)
  | invalidPortFormat
  | invalidMemory
  | invalidCpu
  | next
deriving DecidableEq, Repr

/-- The seven query parameters of the redeploy request. -/
structure Query where
  image : Option String
  memory : Option String
  cpu : Option String
  ports : Option String
  name : Option String
  user : Option String
  primary : Option String
deriving DecidableEq, Repr

/-- The missingParams array as the source builds it: a push per falsy
parameter, in the order image, memory, cpu, ports, name, user, primary. -/
def collectMissingParams (q : Query) : List String :=
  (if jsFalsyOpt q.image then ["image"] else []) ++
  (if jsFalsyOpt q.memory then ["memory"] else []) ++
  (if jsFalsyOpt q.cpu then ["cpu"] else []) ++
  (if jsFalsyOpt q.ports then ["ports"] else []) ++
  (if jsFalsyOpt q.name then ["name"] else []) ++
  (if jsFalsyOpt q.user then ["user"] else []) ++
  (if jsFalsyOpt q.primary then ["primary"] else [])

/-- Spec-side description of the rejection list: the required parameter
names in input order, filtered to the missing ones. -/
def specMissingParams (q : Query) : List String :=
  (([("image", q.image), ("memory", q.memory), ("cpu", q.cpu), ("ports", q.ports),
     ("name", q.name), ("user", q.user), ("primary", q.primary)].filter
      (fun p => jsFalsyOpt p.2)).map Prod.fst)

/-- The validator middleware, translated branch for branch. -/
def validateRedeploymentParams (id : Option String) (q : Query) : ValidationResult :=
  if jsFalsyOpt id then .missingInstanceId
  else
    let missing := collectMissingParams q
    if !missing.isEmpty then .missingParams missing
    else if !portRegexTest (q.ports.getD "") then .invalidPortFormat
    else if (jsParseInt (q.memory.getD "")).isNone then .invalidMemory
    else if (jsParseInt (q.cpu.getD "")).isNone then .invalidCpu
    else .next

/-! ## Payload builder (prepareRequestData) -/

/-- The ExposedPorts and PortBindings objects under construction.  A
PortBindings value is the single-element array of HostPort strings the
source assigns. -/
structure PortMaps where
  ExposedPorts : List (String × Unit)
  PortBindings : List (String × List String)
deriving DecidableEq, Repr

/-- Processing of one host:container token inside the forEach. -/
def processPortMapping (maps : PortMaps) (portMapping : String) : Except String PortMaps :=
  let parts := jsSplit portMapping ':' 
  let hostPort := parts.get? 0
  let containerPort := parts.get? 1
  if jsFalsyOpt hostPort || jsFalsyOpt containerPort then
    .error ("Invalid port mapping: " ++ portMapping)
  else if (jsParseInt (hostPort.getD "")).isNone then
    .error ("Invalid host port: " ++ hostPort.getD "")
  else if (jsParseInt (containerPort.getD "")).isNone then
    .error ("Invalid container port: " ++ containerPort.getD "")
  else
    let key := containerPort.getD "" ++ "/tcp"
    .ok { ExposedPorts := jsObjSet maps.ExposedPorts key ()
          PortBindings := jsObjSet maps.PortBindings key [hostPort.getD ""] }

/-- The forEach over the comma-separated tokens; a thrown error aborts. -/
def processTokens : PortMaps → List String → Except String PortMaps
  | maps, [] => .ok maps
  | maps, t :: ts =>
    match processPortMapping maps t with
    | .error e => .error e
    | .ok m2 => processTokens m2 ts

/-- ports.split on comma, then the forEach. -/
def processPorts (ports : String) (maps : PortMaps) : Except String PortMaps :=
  processTokens maps (jsSplit ports ',')

/-- The request body sent to the remote redeploy endpoint. -/
structure RequestPayload where
  Name : String
  Id : String
  Image : String
  Env : List String
  Scripts : List String
  Memory : Option Int
  Cpu : Option Int
  ExposedPorts : List (String × Unit)
  PortBindings : List (String × List String)
  AltImages : List String
  Labels : List (String × String)
deriving DecidableEq, Repr

/-- The full request descriptor (target, timeout, body).  The fresh
correlation-id header is not modelled; nothing reads it. -/
structure RequestData where
  nodeAddress : String
  nodePort : String
  urlContainerId : String
  timeout : Nat
  data : RequestPayload
deriving DecidableEq, Repr

/-- prepareRequestData, translated from the source.  The db.get of the
images key is passed in as the oracle value imagesDb; the or-else default
to the empty list is applied to the awaited value, as in the source. -/
def prepareRequestData (image memory cpu ports name : String) (node : NodeRec)
    (id containerId : String) (Env : Option (List String))
    (imagesDb : Option (List ImageRec)) : Except String RequestData :=
  let rawImages := imagesDb.getD []
  match rawImages.find? (fun i => i.Image == image) with
  | none => .error ("Image " ++ image ++ " not found in database")
  | some imageData =>
    let base : RequestData := {
      nodeAddress := node.address
      nodePort := node.port
      urlContainerId := containerId
      timeout := 30000
      data := {
        Name := name
        Id := id
        Image := image
        Env := Env.getD []
        Scripts := imageData.Scripts.getD []
        Memory := jsParseInt memory
        Cpu := jsParseInt cpu
        ExposedPorts := []
        PortBindings := []
        AltImages := imageData.AltImages.getD []
        Labels := [("com.skyport.instance", "true"),
                   ("com.skyport.instance.id", id),
                   ("com.skyport.managed", "true")] } }
    if ports == "" then .ok base
    else
      match processPorts ports { ExposedPorts := [], PortBindings := [] } with
      | .error e => .error e
      | .ok maps =>
        .ok { base with data := { base.data with
                ExposedPorts := maps.ExposedPorts
                PortBindings := maps.PortBindings } }

/-! ## Persistence updater (updateDatabaseWithNewInstance) -/

/-- Oracle outcomes for the six store reads the updater performs: the
images catalog, the two list reads, and the three verification re-reads.
none models an absent key (db.get resolving to undefined); the store has
no transactional guarantee, so a re-read may return anything. -/
structure DBEnv where
  images : Option (List ImageRec)
  userInstances : Option (List StoredInstance)
  globalInstances : Option (List StoredInstance)
  verifyUser : Option (List StoredInstance)
  verifyGlobal : Option (List StoredInstance)
  verifySingle : Option StoredInstance
deriving DecidableEq, Repr

/-- The new authoritative instance record, exactly as the source builds
instanceData (the imageData catalog lookup tolerates absence, defaulting
AltImages to the empty list). -/
def buildInstanceData (env : DBEnv) (responseData : RemoteResponse)
    (userId : String) (node : NodeRec) (image : String)
    (memory cpu ports primary name id : String)
    (Env : Option (List String)) (imagedata : Option Blob) (now : String) :
    StoredInstance :=
  let rawImages := env.images.getD []
  let altImages :=
    match rawImages.find? (fun i => i.Image == image) with
    | some d => d.AltImages.getD []
    | none => []
  { Name := name
    Id := id
    Node := node
    User := userId
    ContainerId := responseData.containerId
    VolumeId := id
    Memory := jsParseInt memory
    Cpu := jsParseInt cpu
    Ports := ports
    Primary := primary
    Env := Env.getD []
    Image := image
    AltImages := altImages
    imageData := imagedata.getD .emptyObj
    LastUpdated := now }

/-- The verification read-back predicate: the re-read per-user list has an
entry with the instance id, so does the re-read global list, and the
re-read single record is truthy. -/
def verificationOk (env : DBEnv) (id : String) : Bool :=
  (match env.verifyUser with
   | some l => l.any (fun i => i.Id == id)
   | none => false) &&
  (match env.verifyGlobal with
   | some l => l.any (fun i => i.Id == id)
   | none => false) &&
  env.verifySingle.isSome

/-- Result of the updater: the effect trace, the values written (none when
a write was never reached), and the thrown error if any. -/
structure UpdateResult where
  effects : List Effect
  writtenUser : Option (List StoredInstance)
  writtenGlobal : Option (List StoredInstance)
  writtenSingle : Option StoredInstance
  result : Except String Unit
deriving Repr

/-- updateDatabaseWithNewInstance, translated from the source.  The
source guards the two list reads with an or-else default of the empty
list, but applies it to the Promise, not to the awaited value; a Promise
is always truthy, so the default never takes effect and an absent key
reaches the filter call as undefined, raising a TypeError. -/
def updateDatabaseWithNewInstance (env : DBEnv) (responseData : RemoteResponse)
    (userId : String) (node : NodeRec) (image : String)
    (memory cpu ports primary name id : String)
    (Env : Option (List String)) (imagedata : Option Blob) (now : String) :
    UpdateResult :=
  let instanceData := buildInstanceData env responseData userId node image
      memory cpu ports primary name id Env imagedata now
  let userKey := userId ++ "_instances"
  let readEffects := [Effect.dbGet "images", Effect.dbGet userKey, Effect.dbGet "instances"]
  match env.userInstances, env.globalInstances with
  | none, _ =>
    { effects := readEffects, writtenUser := none, writtenGlobal := none,
      writtenSingle := none, result := .error jsTypeErrorFilter }
  | some _, none =>
    { effects := readEffects, writtenUser := none, writtenGlobal := none,
      writtenSingle := none, result := .error jsTypeErrorFilter }
  | some userInstances, some globalInstances =>
    let updatedUserInstances := userInstances.filter (fun i => i.Id != id) ++ [instanceData]
    let updatedGlobalInstances := globalInstances.filter (fun i => i.Id != id) ++ [instanceData]
    let writeEffects := [Effect.dbSet userKey (.instList updatedUserInstances),
                         Effect.dbSet "instances" (.instList updatedGlobalInstances),
                         Effect.dbSet (id ++ "_instance") (.one instanceData)]
    let verifyEffects := [Effect.dbGet userKey, Effect.dbGet "instances",
                          Effect.dbGet (id ++ "_instance")]
    { effects := readEffects ++ writeEffects ++ verifyEffects
      writtenUser := some updatedUserInstances
      writtenGlobal := some updatedGlobalInstances
      writtenSingle := some instanceData
      result :=
        if verificationOk env id then .ok ()
        else .error "Database verification failed after update" }

/-! ## Route handler (GET /instances/redeploy/:id) -/

/-- An axios failure: a response with a status, or a network-level error. -/
inductive HttpErr where
  | withResponse (status : Nat) (data : String)
  | network (message : String)
deriving DecidableEq, Repr

/-- The errorDetails object the source builds from an axios failure. -/
def HttpErr.describe : HttpErr → String
  | .withResponse s d => "status " ++ toString s ++ ": " ++ d
  | .network m => m

/-- Oracle outcomes for every external interaction of one run of the
route handler, in program order. -/
structure WorldEnv where
  instanceRec : Option InputInstance
  nodeRec : Option NodeRec
  containerCheckData : Except String Bool
  imagesForPrepare : Option (List ImageRec)
  redeployResult : Except HttpErr RemoteResponse
  dbEnv : DBEnv
  deleteOk : Bool
  now : String
deriving Repr

/-- The route handler body, translated from the source: fetch instance,
check its node id, extract the parenthesized image name, fetch the node,
verify the container, build the payload, invoke the redeploy, update the
database (with the compensating delete on update failure), audit and
respond.  Returns the response and the trace of external actions. -/
def handleRedeploy (id image memory cpu ports name user primary : String)
    (reqUserId reqUsername ip : String) (w : WorldEnv) :
    RouteResponse × List Effect :=
  let getInst := Effect.dbGet (id ++ "_instance")
  match w.instanceRec with
  | none =>
    (.redirect 404 "/admin/instances?error=instance_not_found",
     [getInst, .audit { userId := reqUserId, username := reqUsername,
                        action := "instance:redeploy_fail:not_found", ip := ip,
                        instanceId := some id }])
  | some inst =>
    match inst.Node with
    | none =>
      (.jsonError 500 "Instance redeployment failed" jsTypeErrorId, [getInst])
    | some nodeField =>
      if jsFalsyOpt nodeField.id then
        (.jsonError 400 "Instance has no associated node" "", [getInst])
      else
        let nodeId := nodeField.id.getD ""
        match extractParen image with
        | none =>
          (.jsonError 400 "Invalid image format"
             "Image must contain the actual image name in parentheses", [getInst])
        | some shortimage =>
          match w.nodeRec with
          | none =>
            (.jsonError 400 "Invalid node"
               "The node associated with this instance no longer exists",
             [getInst, .dbGet (nodeId ++ "_node"),
              .audit { userId := reqUserId, username := reqUsername,
                       action := "instance:redeploy_fail:invalid_node", ip := ip,
                       nodeId := some nodeId }])
          | some node =>
            let preEffects := [getInst, Effect.dbGet (nodeId ++ "_node"),
                               Effect.httpGet node.address inst.ContainerId]
            match w.containerCheckData with
            | .error msg =>
              (.jsonError 400 "Container check failed"
                 "The existing container could not be verified",
               preEffects ++ [.audit { userId := reqUserId,
                                       username := reqUsername,
                                       action := "instance:redeploy_fail:container_check",
                                       ip := ip,
                                       instanceId := some id, errMsg := some msg }])
            | .ok dataTruthy =>
              if !dataTruthy then
                (.jsonError 400 "Container check failed"
                   "The existing container could not be verified",
                 preEffects ++ [.audit { userId := reqUserId,
                                         username := reqUsername,
                                         action := "instance:redeploy_fail:container_check",
                                         ip := ip,
                                         instanceId := some id,
                                         errMsg := some "Container not found" }])
              else
                let prepEffects := preEffects ++ [Effect.dbGet "images"]
                match prepareRequestData shortimage memory cpu ports name node id
                    inst.ContainerId inst.Env w.imagesForPrepare with
                | .error msg =>
                  (.jsonError 500 "Instance redeployment failed" msg, prepEffects)
                | .ok _reqData =>
                  let postEffects := prepEffects ++
                      [Effect.httpPost node.address inst.ContainerId]
                  match w.redeployResult with
                  | .error e =>
                    (.jsonError 500 "Instance redeployment failed" e.describe,
                     postEffects ++ [.audit { userId := reqUserId,
                                              username := reqUsername,
                                              action := "instance:redeploy_fail:api_error",
                                              ip := ip,
                                              instanceId := some id,
                                              errMsg := some e.describe }])
                  | .ok respData =>
                    let upd := updateDatabaseWithNewInstance w.dbEnv respData user node
                        shortimage memory cpu ports primary name id inst.Env
                        inst.imageData w.now
                    let updEffects := postEffects ++ upd.effects
                    match upd.result with
                    | .error dbMsg =>
                      (.jsonError 500 "Instance redeployment failed" dbMsg,
                       updEffects ++
                        [.audit { userId := reqUserId,
                                  username := reqUsername,
                                  action := "instance:redeploy_fail:db_update",
                                  ip := ip,
                                  instanceId := some id, errMsg := some dbMsg },
                         .httpDelete node.address respData.containerId])
                    | .ok _ =>
                      (.jsonSuccess 201 "Container redeployed successfully"
                         respData.containerId respData.volumeId id,
                       updEffects ++
                        [.audit { userId := reqUserId,
                                  username := reqUsername,
                                  action := "instance:redeploy",
                                  ip := ip,
                                  instanceId := some id,
                                  newContainerId := some respData.containerId }])

/-! ## Concrete fixtures used by witnesses and counterexamples -/

def cNode : NodeRec := { address := "10.0.0.1", port := "8000", apiKey := "k" }

def cImg : ImageRec := { Image := "img", Scripts := some ["s1"], AltImages := some ["a1"] }

def cInst : InputInstance := {
  Node := some { id := some "n1" }, ContainerId := "c1",
  Env := some ["E=1"], imageData := some (.blob "meta") }

def cStored : StoredInstance := {
  Name := "old", Id := "i1", Node := cNode, User := "u1", ContainerId := "c0",
  VolumeId := "i1", Memory := some 256, Cpu := some 1, Ports := "80:8080",
  Primary := "true", Env := [], Image := "img", AltImages := [],
  imageData := .emptyObj, LastUpdated := "t-1" }

def cResp : RemoteResponse := { containerId := "c2", volumeId := "v1" }

def cDBok : DBEnv := {
  images := some [cImg], userInstances := some [cStored],
  globalInstances := some [cStored], verifyUser := some [cStored],
  verifyGlobal := some [cStored], verifySingle := some cStored }

def cWok : WorldEnv := {
  instanceRec := some cInst, nodeRec := some cNode,
  containerCheckData := .ok true, imagesForPrepare := some [cImg],
  redeployResult := .ok cResp,
  dbEnv := cDBok, deleteOk := true, now := "t0" }

/-! ## Claim theorems -/

/-- C1: the spec says the reads of the per-user and global instance-list
keys default to the empty list when the key is absent and the update still
proceeds.  The code applies the or-else default to the Promise (which is
always truthy), so an absent key resolves to undefined, the filter call
raises a TypeError, and the update fails without writing anything: here
evaluated with the per-user key absent, and with the global key absent. -/
theorem C1_absent_list_key_throws :
    (updateDatabaseWithNewInstance { cDBok with userInstances := none } cResp
        "u1" cNode "img" "512" "1" "80:8080" "true" "n" "i1" (some []) none "t0").result
      = .error jsTypeErrorFilter ∧
    (updateDatabaseWithNewInstance { cDBok with userInstances := none } cResp
        "u1" cNode "img" "512" "1" "80:8080" "true" "n" "i1" (some []) none "t0").writtenUser
      = none ∧
    hasDbSet (updateDatabaseWithNewInstance { cDBok with userInstances := none } cResp
        "u1" cNode "img" "512" "1" "80:8080" "true" "n" "i1" (some []) none "t0").effects
      = false ∧
    (updateDatabaseWithNewInstance { cDBok with globalInstances := none } cResp
        "u1" cNode "img" "512" "1" "80:8080" "true" "n" "i1" (some []) none "t0").result
      = .error jsTypeErrorFilter :=
  ⟨rfl, rfl, rfl, rfl⟩

/-- C4: when the fetched instance record has a Node object whose id is
absent or empty, the route answers the client error 400 with the message
that the instance has no associated node, and its whole external trace is
the single instance fetch: no further store lookup, no remote call, and
no audit event. -/
theorem C4_missing_node_id_is_client_error
    (id image memory cpu ports name user primary ru un ip : String) (w : WorldEnv)
    {inst : InputInstance} {nf : InputNode}
    (h1 : w.instanceRec = some inst) (h2 : inst.Node = some nf)
    (h3 : jsFalsyOpt nf.id = true) :
    handleRedeploy id image memory cpu ports name user primary ru un ip w
      = (.jsonError 400 "Instance has no associated node" "",
         [Effect.dbGet (id ++ "_instance")]) := by
  simp [handleRedeploy, h1, h2, h3]

theorem C4_missing_node_id_is_client_error_witness :
    handleRedeploy "i1" "X (img)" "512" "1" "80:8080" "n" "u1" "true" "admin" "adm" "ip"
        { cWok with instanceRec := some { cInst with Node := some { id := none } } }
      = (.jsonError 400 "Instance has no associated node" "",
         [Effect.dbGet ("i1" ++ "_instance")]) :=
  C4_missing_node_id_is_client_error "i1" "X (img)" "512" "1" "80:8080" "n" "u1" "true"
    "admin" "adm" "ip" _ rfl rfl rfl

/-- The missingParams array the validator builds equals the spec-side
in-order filter of the seven required parameter names. -/
theorem collectMissing_eq_spec (q : Query) :
    collectMissingParams q = specMissingParams q := by
  simp only [collectMissingParams, specMissingParams, List.filter, List.map]
  by_cases h1 : jsFalsyOpt q.image = true <;> by_cases h2 : jsFalsyOpt q.memory = true <;>
    by_cases h3 : jsFalsyOpt q.cpu = true <;> by_cases h4 : jsFalsyOpt q.ports = true <;>
    by_cases h5 : jsFalsyOpt q.name = true <;> by_cases h6 : jsFalsyOpt q.user = true <;>
    by_cases h7 : jsFalsyOpt q.primary = true <;>
    simp [h1, h2, h3, h4, h5, h6, h7]

/-- C7: for every request whose instance id is present and in which any
subset of the seven required query parameters is missing, the validator
rejects with exactly the missing names, in the input order image, memory,
cpu, ports, name, user, primary (all of them, not just the first). -/
theorem C7_validator_lists_missing_params (idv : Option String) (q : Query)
    (hid : jsFalsyOpt idv = false) (hmiss : specMissingParams q ≠ []) :
    validateRedeploymentParams idv q = .missingParams (specMissingParams q) := by
  have hc := collectMissing_eq_spec q
  simp [validateRedeploymentParams, hid, hc, hmiss]

def qMissing : Query := {
  image := none, memory := some "512", cpu := none, ports := some "80:8080",
  name := some "n", user := some "u", primary := some "t" }

theorem C7_validator_lists_missing_params_witness :
    jsFalsyOpt (some "i1") = false ∧ specMissingParams qMissing ≠ [] ∧
    validateRedeploymentParams (some "i1") qMissing
      = .missingParams (specMissingParams qMissing) :=
  ⟨by decide, by decide,
   C7_validator_lists_missing_params (some "i1") qMissing (by decide) (by decide)⟩

/-- Whether an Except value is a success. -/
def exceptIsOk : Except ε α → Bool
  | .ok _ => true
  | .error _ => false

/-- C8: when the image catalog has no entry whose Image field equals the
short image name, the payload builder fails with the image-not-found
error; the persistence updater, in contrast, never lets its outcome
depend on the catalog at all, and defaults the AltImages of the record it
writes to the empty list. -/
theorem C8_image_lookup_asymmetry
    (image memory cpu ports name : String) (node : NodeRec) (id cid : String)
    (Env : Option (List String)) (cat : Option (List ImageRec))
    (env : DBEnv) (respData : RemoteResponse)
    (userId primary now : String) (imagedata : Option Blob)
    (hfind : (cat.getD []).find? (fun i => i.Image == image) = none)
    (henvfind : (env.images.getD []).find? (fun i => i.Image == image) = none) :
    prepareRequestData image memory cpu ports name node id cid Env cat
      = .error ("Image " ++ image ++ " not found in database") ∧
    (∀ o : Option (List ImageRec),
      (updateDatabaseWithNewInstance { env with images := o } respData userId node image
          memory cpu ports primary name id Env imagedata now).result
        = (updateDatabaseWithNewInstance env respData userId node image
          memory cpu ports primary name id Env imagedata now).result) ∧
    (buildInstanceData env respData userId node image memory cpu ports primary name id
        Env imagedata now).AltImages = [] := by
  refine ⟨?_, ?_, ?_⟩
  · simp [prepareRequestData, hfind]
  · intro o
    cases hu : env.userInstances <;> cases hg : env.globalInstances <;>
      simp [updateDatabaseWithNewInstance, verificationOk, hu, hg]
  · simp [buildInstanceData, henvfind]

theorem C8_image_lookup_asymmetry_witness :
    prepareRequestData "missing" "512" "1" "80:8080" "n" cNode "i1" "c1" (some [])
        (some [cImg])
      = .error ("Image " ++ "missing" ++ " not found in database") ∧
    (∀ o : Option (List ImageRec),
      (updateDatabaseWithNewInstance { cDBok with images := o } cResp "u1" cNode "missing"
          "512" "1" "80:8080" "true" "n" "i1" (some []) none "t0").result
        = (updateDatabaseWithNewInstance cDBok cResp "u1" cNode "missing"
          "512" "1" "80:8080" "true" "n" "i1" (some []) none "t0").result) ∧
    (buildInstanceData cDBok cResp "u1" cNode "missing" "512" "1" "80:8080" "true" "n"
        "i1" (some []) none "t0").AltImages = [] :=
  C8_image_lookup_asymmetry "missing" "512" "1" "80:8080" "n" cNode "i1" "c1"
    (some []) (some [cImg]) cDBok cResp "u1" "true" "t0" none (by decide) (by decide)

/-- C2: in every run in which the redeploy call succeeded and the updater
reached its three writes (both list reads returned a value) but the
verification read-back failed, the route surfaces the 500 persistence
error carrying the verification message, the trace contains a
compensating DELETE to the node agent for the newly created container id,
and the outcome does not depend on whether that delete succeeds (its
failure is only logged). -/
theorem C2_persistence_failure_compensates
    (id image memory cpu ports name user primary ru un ip : String) (w : WorldEnv)
    {inst : InputInstance} {nf : InputNode} {node : NodeRec} {shortimage : String}
    {respData : RemoteResponse}
    {ul gl : List StoredInstance}
    (h1 : w.instanceRec = some inst) (h2 : inst.Node = some nf)
    (h3 : jsFalsyOpt nf.id = false) (h4 : extractParen image = some shortimage)
    (h5 : w.nodeRec = some node) (h6 : w.containerCheckData = .ok true)
    (h7 : exceptIsOk (prepareRequestData shortimage memory cpu ports name node id
            inst.ContainerId inst.Env w.imagesForPrepare) = true)
    (h8 : w.redeployResult = .ok respData)
    (h9 : w.dbEnv.userInstances = some ul) (h10 : w.dbEnv.globalInstances = some gl)
    (h11 : verificationOk w.dbEnv id = false) :
    (handleRedeploy id image memory cpu ports name user primary ru un ip w).1
      = .jsonError 500 "Instance redeployment failed"
          "Database verification failed after update" ∧
    Effect.httpDelete node.address respData.containerId
      ∈ (handleRedeploy id image memory cpu ports name user primary ru un ip w).2 ∧
    ∀ b : Bool,
      handleRedeploy id image memory cpu ports name user primary ru un ip
          { w with deleteOk := b }
        = handleRedeploy id image memory cpu ports name user primary ru un ip w := by
  cases hp : prepareRequestData shortimage memory cpu ports name node id
      inst.ContainerId inst.Env w.imagesForPrepare with
  | error e => rw [hp] at h7; simp [exceptIsOk] at h7
  | ok reqData =>
    refine ⟨?_, ?_, fun b => rfl⟩ <;>
      simp [handleRedeploy, h1, h2, h3, h4, h5, h6, hp, h8,
            updateDatabaseWithNewInstance, h9, h10, h11]

def cW2 : WorldEnv := { cWok with dbEnv := { cDBok with verifyGlobal := some [] } }

theorem C2_persistence_failure_compensates_witness :
    (handleRedeploy "i1" "X (img)" "512" "1" "80:8080" "n" "u1" "true" "admin" "adm" "ip" cW2).1
      = .jsonError 500 "Instance redeployment failed"
          "Database verification failed after update" ∧
    Effect.httpDelete cNode.address cResp.containerId
      ∈ (handleRedeploy "i1" "X (img)" "512" "1" "80:8080" "n" "u1" "true" "admin" "adm" "ip" cW2).2 ∧
    ∀ b : Bool,
      handleRedeploy "i1" "X (img)" "512" "1" "80:8080" "n" "u1" "true" "admin" "adm" "ip"
          { cW2 with deleteOk := b }
        = handleRedeploy "i1" "X (img)" "512" "1" "80:8080" "n" "u1" "true" "admin" "adm" "ip" cW2 :=
  C2_persistence_failure_compensates "i1" "X (img)" "512" "1" "80:8080" "n" "u1" "true"
    "admin" "adm" "ip" cW2 rfl rfl rfl rfl rfl rfl (by decide) rfl rfl rfl (by decide)

/-- C3 fails as stated: in this full-success run the remote response
carries volume id v1 while the instance id is i1; the route returns the
201 envelope with volumeId v1, which is not the instance id. -/
theorem C3_volumeId_from_remote_counterexample :
    (handleRedeploy "i1" "X (img)" "512" "1" "80:8080" "n" "u1" "true"
        "admin" "adm" "ip" cWok).1
      = .jsonSuccess 201 "Container redeployed successfully" "c2" "v1" "i1" ∧
    ("v1" : String) ≠ "i1" := by
  exact ⟨by decide, by decide⟩

/-- C3 (amended): on full success the route audits instance:redeploy with
the old instance id and the new container id and returns a 201 success
envelope with data containerId, volumeId, instanceId, where volumeId is
the volume id reported by the remote response, not recomputed from the
instance id; the persisted record, in contrast, does set VolumeId to the
instance id. -/
theorem C3_success_audits_and_responds
    (id image memory cpu ports name user primary ru un ip : String) (w : WorldEnv)
    {inst : InputInstance} {nf : InputNode} {node : NodeRec} {shortimage : String}
    {respData : RemoteResponse}
    {ul gl : List StoredInstance}
    (h1 : w.instanceRec = some inst) (h2 : inst.Node = some nf)
    (h3 : jsFalsyOpt nf.id = false) (h4 : extractParen image = some shortimage)
    (h5 : w.nodeRec = some node) (h6 : w.containerCheckData = .ok true)
    (h7 : exceptIsOk (prepareRequestData shortimage memory cpu ports name node id
            inst.ContainerId inst.Env w.imagesForPrepare) = true)
    (h8 : w.redeployResult = .ok respData)
    (h9 : w.dbEnv.userInstances = some ul) (h10 : w.dbEnv.globalInstances = some gl)
    (h11 : verificationOk w.dbEnv id = true) :
    (handleRedeploy id image memory cpu ports name user primary ru un ip w).1
      = .jsonSuccess 201 "Container redeployed successfully"
          respData.containerId respData.volumeId id ∧
    Effect.audit { userId := ru, username := un, action := "instance:redeploy", ip := ip,
                   instanceId := some id,
                   newContainerId := some respData.containerId }
      ∈ (handleRedeploy id image memory cpu ports name user primary ru un ip w).2 ∧
    (buildInstanceData w.dbEnv respData user node shortimage memory cpu ports primary
        name id inst.Env inst.imageData w.now).VolumeId = id := by
  cases hp : prepareRequestData shortimage memory cpu ports name node id
      inst.ContainerId inst.Env w.imagesForPrepare with
  | error e => rw [hp] at h7; simp [exceptIsOk] at h7
  | ok reqData =>
    refine ⟨?_, ?_, rfl⟩ <;>
      simp [handleRedeploy, h1, h2, h3, h4, h5, h6, hp, h8,
            updateDatabaseWithNewInstance, h9, h10, h11]

theorem C3_success_audits_and_responds_witness :
    (handleRedeploy "i1" "X (img)" "512" "1" "80:8080" "n" "u1" "true"
        "admin" "adm" "ip" cWok).1
      = .jsonSuccess 201 "Container redeployed successfully"
          cResp.containerId cResp.volumeId "i1" ∧
    Effect.audit { userId := "admin", username := "adm", action := "instance:redeploy",
                   ip := "ip", instanceId := some "i1",
                   newContainerId := some cResp.containerId }
      ∈ (handleRedeploy "i1" "X (img)" "512" "1" "80:8080" "n" "u1" "true"
          "admin" "adm" "ip" cWok).2 ∧
    (buildInstanceData cWok.dbEnv cResp "u1" cNode "img" "512" "1" "80:8080" "true"
        "n" "i1" cInst.Env cInst.imageData cWok.now).VolumeId = "i1" :=
  C3_success_audits_and_responds "i1" "X (img)" "512" "1" "80:8080" "n" "u1" "true"
    "admin" "adm" "ip" cWok rfl rfl rfl rfl rfl rfl (by decide) rfl rfl rfl rfl

/-- In a list filtered of the target id and then extended with one record
carrying that id, the appended record is the only entry with the id. -/
theorem countP_filter_append_one (l : List StoredInstance) (rec : StoredInstance)
    (id : String) (hrec : rec.Id = id) :
    ((l.filter (fun i => i.Id != id)) ++ [rec]).countP (fun i => i.Id == id) = 1 := by
  rw [List.countP_append]
  have h0 : (l.filter (fun i => i.Id != id)).countP (fun i => i.Id == id) = 0 := by
    apply List.countP_eq_zero.mpr
    intro a ha
    have hne := (List.mem_filter.mp ha).2
    simp only [bne_iff_ne, ne_eq] at hne
    simp [hne]
  simp [h0, List.countP_cons, hrec]

/-- C5: the persistence updater removes every existing entry whose Id is
the instance id from both the per-user and the global list before
appending the new record, so each written list carries exactly one entry
with the instance id, and a second redeploy reading back the
just-written lists again leaves exactly one entry in each. -/
theorem C5_redeploy_replaces_not_appends
    (env : DBEnv) (respData : RemoteResponse) (userId : String) (node : NodeRec)
    (image memory cpu ports primary name id : String)
    (Env : Option (List String)) (imagedata : Option Blob) (now : String)
    {ul gl : List StoredInstance}
    (h1 : env.userInstances = some ul) (h2 : env.globalInstances = some gl) :
    (updateDatabaseWithNewInstance env respData userId node image memory cpu ports
        primary name id Env imagedata now).writtenUser
      = some ((ul.filter (fun i => i.Id != id)) ++
          [buildInstanceData env respData userId node image memory cpu ports primary
            name id Env imagedata now]) ∧
    (updateDatabaseWithNewInstance env respData userId node image memory cpu ports
        primary name id Env imagedata now).writtenGlobal
      = some ((gl.filter (fun i => i.Id != id)) ++
          [buildInstanceData env respData userId node image memory cpu ports primary
            name id Env imagedata now]) ∧
    ((ul.filter (fun i => i.Id != id)) ++
        [buildInstanceData env respData userId node image memory cpu ports primary
          name id Env imagedata now]).countP (fun i => i.Id == id) = 1 ∧
    ((gl.filter (fun i => i.Id != id)) ++
        [buildInstanceData env respData userId node image memory cpu ports primary
          name id Env imagedata now]).countP (fun i => i.Id == id) = 1 ∧
    (∀ env2 : DBEnv, ∀ ul2 gl2 : List StoredInstance,
      env2.userInstances = some ul2 → env2.globalInstances = some gl2 →
      ul2.countP (fun i => i.Id == id) = 1 → gl2.countP (fun i => i.Id == id) = 1 →
      ∃ W2 G2 : List StoredInstance,
        (updateDatabaseWithNewInstance env2 respData userId node image memory cpu ports
            primary name id Env imagedata now).writtenUser = some W2 ∧
        (updateDatabaseWithNewInstance env2 respData userId node image memory cpu ports
            primary name id Env imagedata now).writtenGlobal = some G2 ∧
        W2.countP (fun i => i.Id == id) = 1 ∧
        G2.countP (fun i => i.Id == id) = 1) := by
  refine ⟨?_, ?_, ?_, ?_, ?_⟩
  · simp [updateDatabaseWithNewInstance, h1, h2]
  · simp [updateDatabaseWithNewInstance, h1, h2]
  · exact countP_filter_append_one ul _ id rfl
  · exact countP_filter_append_one gl _ id rfl
  · intro env2 ul2 gl2 h3 h4 _ _
    refine ⟨(ul2.filter (fun i => i.Id != id)) ++
        [buildInstanceData env2 respData userId node image memory cpu ports primary
          name id Env imagedata now],
      (gl2.filter (fun i => i.Id != id)) ++
        [buildInstanceData env2 respData userId node image memory cpu ports primary
          name id Env imagedata now], ?_, ?_, ?_, ?_⟩
    · simp [updateDatabaseWithNewInstance, h3, h4]
    · simp [updateDatabaseWithNewInstance, h3, h4]
    · exact countP_filter_append_one ul2 _ id rfl
    · exact countP_filter_append_one gl2 _ id rfl

theorem C5_redeploy_replaces_not_appends_witness :
    (updateDatabaseWithNewInstance cDBok cResp "u1" cNode "img" "512" "1" "80:8080"
        "true" "n" "i1" (some []) none "t0").writtenUser
      = some (([cStored].filter (fun i => i.Id != "i1")) ++
          [buildInstanceData cDBok cResp "u1" cNode "img" "512" "1" "80:8080" "true"
            "n" "i1" (some []) none "t0"]) ∧
    (updateDatabaseWithNewInstance cDBok cResp "u1" cNode "img" "512" "1" "80:8080"
        "true" "n" "i1" (some []) none "t0").writtenGlobal
      = some (([cStored].filter (fun i => i.Id != "i1")) ++
          [buildInstanceData cDBok cResp "u1" cNode "img" "512" "1" "80:8080" "true"
            "n" "i1" (some []) none "t0"]) ∧
    (([cStored].filter (fun i => i.Id != "i1")) ++
        [buildInstanceData cDBok cResp "u1" cNode "img" "512" "1" "80:8080" "true"
          "n" "i1" (some []) none "t0"]).countP (fun i => i.Id == "i1") = 1 ∧
    (([cStored].filter (fun i => i.Id != "i1")) ++
        [buildInstanceData cDBok cResp "u1" cNode "img" "512" "1" "80:8080" "true"
          "n" "i1" (some []) none "t0"]).countP (fun i => i.Id == "i1") = 1 ∧
    (∀ env2 : DBEnv, ∀ ul2 gl2 : List StoredInstance,
      env2.userInstances = some ul2 → env2.globalInstances = some gl2 →
      ul2.countP (fun i => i.Id == "i1") = 1 → gl2.countP (fun i => i.Id == "i1") = 1 →
      ∃ W2 G2 : List StoredInstance,
        (updateDatabaseWithNewInstance env2 cResp "u1" cNode "img" "512" "1" "80:8080"
            "true" "n" "i1" (some []) none "t0").writtenUser = some W2 ∧
        (updateDatabaseWithNewInstance env2 cResp "u1" cNode "img" "512" "1" "80:8080"
            "true" "n" "i1" (some []) none "t0").writtenGlobal = some G2 ∧
        W2.countP (fun i => i.Id == "i1") = 1 ∧
        G2.countP (fun i => i.Id == "i1") = 1) :=
  C5_redeploy_replaces_not_appends cDBok cResp "u1" cNode "img" "512" "1" "80:8080"
    "true" "n" "i1" (some []) none "t0" rfl rfl

/-- A decimal digit character is not whitespace. -/
theorem digit_not_ws {c : Char} (h : c.isDigit = true) : c.isWhitespace = false := by
  rcases hc : c.isWhitespace with _ | _
  · rfl
  · exfalso
    simp only [Char.isWhitespace, Bool.or_eq_true, decide_eq_true_eq] at hc
    rcases hc with ((h1 | h1) | h1) | h1 <;> rw [h1] at h <;> exact absurd h (by decide)

/-- dropWhile whitespace is the identity on an all-digit character list. -/
theorem dropWhile_ws_digits {l : List Char} (h : l.all Char.isDigit = true) :
    l.dropWhile Char.isWhitespace = l := by
  cases l with
  | nil => rfl
  | cons c cs =>
    simp only [List.all_cons, Bool.and_eq_true] at h
    simp [List.dropWhile_cons, digit_not_ws h.1]

/-- jsParseInt succeeds on every nonempty all-digit string. -/
theorem jsParseInt_digits_isSome (s : String) (h : isDigitStr s = true) :
    (jsParseInt s).isSome = true := by
  have h2 : s.data.all Char.isDigit = true := by
    unfold isDigitStr at h
    exact (Bool.and_eq_true _ _ |>.mp h).2
  have h1 : s.data.isEmpty = false := by
    unfold isDigitStr at h
    have := (Bool.and_eq_true _ _ |>.mp h).1
    simpa using this
  unfold jsParseInt
  rw [dropWhile_ws_digits h2]
  rcases hs : s.data with _ | ⟨c, cs⟩
  · rw [hs] at h1; simp at h1
  · rw [hs] at h2
    simp only [List.all_cons, Bool.and_eq_true] at h2
    have hm : ¬ (c = '-') := fun hc => by rw [hc] at h2; exact absurd h2.1 (by decide)
    have hp : ¬ (c = '+') := fun hc => by rw [hc] at h2; exact absurd h2.1 (by decide)
    simp only [List.head?_cons]
    rw [if_neg (by simp [hm]), if_neg (by simp [hp])]
    unfold parseDigits leadingDigits
    rw [List.takeWhile_eq_self_iff.mpr ?_]
    · simp
    · intro x hx
      exact List.all_eq_true.mp (by simp [h2]) x hx

/-- A nonempty all-digit string is not the empty string (is truthy). -/
theorem digitStr_not_falsy {s : String} (h : isDigitStr s = true) :
    jsFalsyOpt (some s) = false := by
  rcases hb : s == "" with _ | _
  · simp [jsFalsyOpt, hb]
  · exfalso
    have : s = "" := eq_of_beq hb
    rw [this] at h
    exact absurd h (by decide)

/-- Host side of a host:container token. -/
def pairHost (t : String) : String := ((jsSplit t ':').get? 0).getD ""

/-- Container side of a host:container token. -/
def pairContainer (t : String) : String := ((jsSplit t ':').get? 1).getD ""

/-- A valid pair token splits into exactly its host and container sides,
both nonempty digit strings. -/
theorem pair_split (t : String) (h : isPortPair t = true) :
    jsSplit t ':' = [pairHost t, pairContainer t] ∧
    isDigitStr (pairHost t) = true ∧ isDigitStr (pairContainer t) = true := by
  unfold isPortPair at h
  unfold pairHost pairContainer
  rcases hs : jsSplit t ':' with _ | ⟨a, _ | ⟨b, _ | _⟩⟩ <;> rw [hs] at h <;> simp_all

/-- On a valid pair token the forEach body performs exactly its two
object writes and succeeds. -/
theorem processPortMapping_pair (m : PortMaps) (t : String) (h : isPortPair t = true) :
    processPortMapping m t = .ok {
      ExposedPorts := jsObjSet m.ExposedPorts (pairContainer t ++ "/tcp") ()
      PortBindings := jsObjSet m.PortBindings (pairContainer t ++ "/tcp") [pairHost t] } := by
  obtain ⟨hsplit, ha, hb⟩ := pair_split t h
  unfold processPortMapping
  rw [hsplit]
  have hfa := digitStr_not_falsy ha
  have hfb := digitStr_not_falsy hb
  have hpa := jsParseInt_digits_isSome _ ha
  have hpb := jsParseInt_digits_isSome _ hb
  rcases hva : jsParseInt (pairHost t) with _ | va
  · rw [hva] at hpa; simp at hpa
  · rcases hvb : jsParseInt (pairContainer t) with _ | vb
    · rw [hvb] at hpb; simp at hpb
    · simp [hfa, hfb, hva, hvb]

/-- The forEach over a list of valid pair tokens never throws. -/
theorem processTokens_ok (ts : List String) (m : PortMaps)
    (h : ts.all isPortPair = true) : exceptIsOk (processTokens m ts) = true := by
  induction ts generalizing m with
  | nil => rfl
  | cons t ts ih =>
    simp only [List.all_cons, Bool.and_eq_true] at h
    rw [processTokens, processPortMapping_pair m t h.1]
    exact ih _ h.2

/-- C10: for every ports string accepted by the validator regex, the
port-mapping loop of the payload builder cannot throw: every error branch
(empty host or container side, non-integer host or container port) is
unreachable, and processing returns successfully. -/
theorem C10_regex_valid_ports_never_throw (s : String) (m : PortMaps)
    (h : portRegexTest s = true) : exceptIsOk (processPorts s m) = true := by
  unfold portRegexTest at h
  unfold processPorts
  exact processTokens_ok _ m h

theorem C10_regex_valid_ports_never_throw_witness :
    portRegexTest "80:8080,443:8443" = true ∧
    exceptIsOk (processPorts "80:8080,443:8443"
        { ExposedPorts := [], PortBindings := [] }) = true :=
  ⟨by decide, C10_regex_valid_ports_never_throw "80:8080,443:8443"
      { ExposedPorts := [], PortBindings := [] } (by decide)⟩

/-- Inside the in-place-overwrite branch, find? of the written key yields
the new pair. -/
theorem find_map_upsert (m : List (String × α)) (k : String) (v : α)
    (hmem : m.any (fun p => p.1 == k) = true) :
    (m.map (fun p => if p.1 == k then (k, v) else p)).find? (fun p => p.1 == k)
      = some (k, v) := by
  induction m with
  | nil => simp at hmem
  | cons p ps ih =>
    rcases hp : (p.1 == k) with _ | _
    · simp only [List.any_cons, hp, Bool.false_or] at hmem
      simp only [List.map_cons, if_neg (by simp [hp] : ¬ ((p.1 == k) = true))]
      rw [List.find?_cons_of_neg _ (by simp [hp])]
      exact ih hmem
    · simp only [List.map_cons, if_pos hp]
      rw [List.find?_cons_of_pos _ (by simp)]

/-- Inside the append branch, find? of the written key yields the new
pair, since no earlier pair carries it. -/
theorem find_append_missing (m : List (String × α)) (k : String) (v : α)
    (hmem : m.any (fun p => p.1 == k) = false) :
    (m ++ [(k, v)]).find? (fun p => p.1 == k) = some (k, v) := by
  induction m with
  | nil => simp
  | cons p ps ih =>
    simp only [List.any_cons, Bool.or_eq_false_iff] at hmem
    rw [List.cons_append, List.find?_cons_of_neg _ (by simp [hmem.1])]
    exact ih hmem.2

/-- Reading the key just written returns the value just written. -/
theorem jsObjGet_set_same (m : List (String × α)) (k : String) (v : α) :
    jsObjGet (jsObjSet m k v) k = some v := by
  unfold jsObjSet jsObjGet
  by_cases hmem : m.any (fun p => p.1 == k) = true
  · rw [if_pos hmem, find_map_upsert m k v hmem]
    rfl
  · have hmem2 : m.any (fun p => p.1 == k) = false := by
      rcases h2 : m.any (fun p => p.1 == k) with _ | _
      · rfl
      · exact absurd h2 hmem
    rw [if_neg hmem, find_append_missing m k v hmem2]
    rfl

/-- In the overwrite branch, find? of any other key is unchanged. -/
theorem find_map_upsert_other (m : List (String × α)) (k k2 : String) (v : α)
    (hne : k2 ≠ k) :
    (m.map (fun p => if p.1 == k then (k, v) else p)).find? (fun p => p.1 == k2)
      = m.find? (fun p => p.1 == k2) := by
  induction m with
  | nil => rfl
  | cons p ps ih =>
    simp only [List.map_cons]
    rcases hp : (p.1 == k) with _ | _
    · rw [if_neg (by simp [hp])]
      rcases hp2 : (p.1 == k2) with _ | _
      · rw [List.find?_cons_of_neg _ (by simp [hp2]),
            List.find?_cons_of_neg _ (by simp [hp2])]
        exact ih
      · rw [List.find?_cons_of_pos _ (by simp [hp2]),
            List.find?_cons_of_pos _ (by simp [hp2])]
    · rw [if_pos rfl]
      have hpk : p.1 = k := eq_of_beq hp
      have hp2 : (p.1 == k2) = false := by
        rcases hb : (p.1 == k2) with _ | _
        · rfl
        · exact absurd ((eq_of_beq hb).symm.trans hpk) hne
      rw [List.find?_cons_of_neg _
            (by simp only [beq_iff_eq]; exact fun hh => hne hh.symm),
          List.find?_cons_of_neg _ (by simp [hp2])]
      exact ih

/-- In the append branch, find? of any other key is unchanged. -/
theorem find_append_other (m : List (String × α)) (k k2 : String) (v : α)
    (hne : k2 ≠ k) :
    (m ++ [(k, v)]).find? (fun p => p.1 == k2) = m.find? (fun p => p.1 == k2) := by
  induction m with
  | nil =>
    simp only [List.nil_append, List.find?_nil]
    rw [List.find?_cons_of_neg _
      (by simp only [beq_iff_eq]; exact fun hh => hne hh.symm)]
    rfl
  | cons p ps ih =>
    rcases hp2 : (p.1 == k2) with _ | _
    · rw [List.cons_append, List.find?_cons_of_neg _ (by simp [hp2]),
          List.find?_cons_of_neg _ (by simp [hp2])]
      exact ih
    · rw [List.cons_append, List.find?_cons_of_pos _ (by simp [hp2]),
          List.find?_cons_of_pos _ (by simp [hp2])]

/-- Reading another key after an object write is unchanged. -/
theorem jsObjGet_set_other (m : List (String × α)) (k k2 : String) (v : α)
    (hne : k2 ≠ k) :
    jsObjGet (jsObjSet m k v) k2 = jsObjGet m k2 := by
  unfold jsObjSet jsObjGet
  by_cases hmem : m.any (fun p => p.1 == k) = true
  · rw [if_pos hmem, find_map_upsert_other m k k2 v hne]
  · rw [if_neg hmem, find_append_other m k k2 v hne]

/-- Appending the same suffix to two strings preserves distinctness of
the prefixes. -/
theorem str_append_right_cancel {a b c : String} (h : a ++ c = b ++ c) : a = b := by
  rcases a with ⟨la⟩
  rcases b with ⟨lb⟩
  rcases c with ⟨lc⟩
  have hd : la ++ lc = lb ++ lc := by
    have h2 := congrArg String.data h
    simpa [HAppend.hAppend, String.append] using h2
  exact congrArg String.mk (List.append_cancel_right hd)

/-- Final content of one PortBindings key after the forEach: either no
processed token wrote it and it is unchanged, or some processed token
with that container port wrote it and it holds that token's single-entry
host list. -/
theorem processTokens_bindings (ts : List String) (k : String) :
    ∀ m mf : PortMaps, ts.all isPortPair = true →
    processTokens m ts = .ok mf →
    (jsObjGet mf.PortBindings k = jsObjGet m.PortBindings k ∧
       ∀ t ∈ ts, pairContainer t ++ "/tcp" ≠ k) ∨
    (∃ t ∈ ts, pairContainer t ++ "/tcp" = k ∧
       jsObjGet mf.PortBindings k = some [pairHost t]) := by
  induction ts with
  | nil =>
    intro m mf _ hok
    rw [processTokens] at hok
    injection hok with h
    subst h
    left
    exact ⟨rfl, by simp⟩
  | cons t ts ih =>
    intro m mf hall hok
    simp only [List.all_cons, Bool.and_eq_true] at hall
    rw [processTokens, processPortMapping_pair m t hall.1] at hok
    rcases ih _ _ hall.2 hok with ⟨heq, hnone⟩ | ⟨t2, ht2, hkey, hval⟩
    · by_cases hk : pairContainer t ++ "/tcp" = k
      · right
        refine ⟨t, by simp, hk, ?_⟩
        rw [heq, ← hk]
        exact jsObjGet_set_same _ _ _
      · left
        refine ⟨?_, ?_⟩
        · rw [heq]
          exact jsObjGet_set_other _ _ _ _ (fun hh => hk hh.symm)
        · intro x hx
          rcases List.mem_cons.mp hx with hx1 | hx2
          · rw [hx1]; exact hk
          · exact hnone x hx2
    · right
      exact ⟨t2, List.mem_cons_of_mem _ ht2, hkey, hval⟩

/-- Presence of ExposedPorts keys is stable across the forEach, and every
processed token establishes its own key. -/
theorem processTokens_exposed (ts : List String) (k : String) :
    ∀ m mf : PortMaps, ts.all isPortPair = true →
    processTokens m ts = .ok mf →
    ((jsObjGet m.ExposedPorts k).isSome = true ∨
      ∃ t ∈ ts, pairContainer t ++ "/tcp" = k) →
    (jsObjGet mf.ExposedPorts k).isSome = true := by
  induction ts with
  | nil =>
    intro m mf _ hok hsrc
    rw [processTokens] at hok
    injection hok with h
    subst h
    rcases hsrc with h | ⟨t, ht, _⟩
    · exact h
    · simp at ht
  | cons t ts ih =>
    intro m mf hall hok hsrc
    simp only [List.all_cons, Bool.and_eq_true] at hall
    rw [processTokens, processPortMapping_pair m t hall.1] at hok
    apply ih _ _ hall.2 hok
    rcases hsrc with h | ⟨t2, ht2, hkey⟩
    · left
      by_cases hk : pairContainer t ++ "/tcp" = k
      · rw [← hk, jsObjGet_set_same]
        rfl
      · rw [jsObjGet_set_other _ _ _ _ (fun hh => hk hh.symm)]
        exact h
    · rcases List.mem_cons.mp ht2 with h1 | h1
      · left
        rw [← hkey, ← h1, jsObjGet_set_same]
        rfl
      · right
        exact ⟨t2, h1, hkey⟩

/-- C6 fails as stated: in the regex-valid ports string 1:80,2:80 the
token 1:80 is a valid pair, yet the final port-bindings entry for 80/tcp
is the single-element host list of the later pair, 2, not 1. -/
theorem C6_duplicate_container_port_counterexample :
    isPortPair "1:80" = true ∧
    jsSplit "1:80,2:80" ',' = ["1:80", "2:80"] ∧
    processPorts "1:80,2:80" { ExposedPorts := [], PortBindings := [] }
      = .ok { ExposedPorts := [("80/tcp", ())], PortBindings := [("80/tcp", ["2"])] } ∧
    (some (["2"] : List String)) ≠ some ["1"] :=
  ⟨by decide, by decide, rfl, by decide⟩

/-- Appending the same suffix on both sides of a string beq test does
not change its outcome. -/
theorem beq_append_right (a b s : String) : (a ++ s == b ++ s) = (a == b) := by
  rcases hab : (a == b) with _ | _
  · rcases h2 : (a ++ s == b ++ s) with _ | _
    · rfl
    · have heq := str_append_right_cancel (eq_of_beq h2)
      rw [heq] at hab
      simp at hab
  · rw [eq_of_beq hab]
    simp

/-- The host side of the last pair token whose container port is c: the
winner of the successive object overwrites for the key c/tcp. -/
def lastHostFor (ts : List String) (c : String) : Option String :=
  ((ts.filter (fun t => pairContainer t == c)).getLast?).map pairHost

/-- Exact final content of one PortBindings key after the forEach: the
single-entry host list of the LAST processed token that writes it, or
the initial content when no token writes it. -/
theorem processTokens_bindings_last (ts : List String) (k : String) :
    ∀ m mf : PortMaps, ts.all isPortPair = true →
    processTokens m ts = .ok mf →
    jsObjGet mf.PortBindings k =
      match (ts.filter (fun t => pairContainer t ++ "/tcp" == k)).getLast? with
      | some tl => some [pairHost tl]
      | none => jsObjGet m.PortBindings k := by
  induction ts with
  | nil =>
    intro m mf _ hok
    rw [processTokens] at hok
    injection hok with h
    subst h
    rfl
  | cons t ts ih =>
    intro m mf hall hok
    simp only [List.all_cons, Bool.and_eq_true] at hall
    rw [processTokens, processPortMapping_pair m t hall.1] at hok
    have hih := ih _ _ hall.2 hok
    rcases hk : (pairContainer t ++ "/tcp" == k) with _ | _
    · rw [List.filter_cons_of_neg (by simp [hk]), hih]
      rcases hl : (ts.filter (fun x => pairContainer x ++ "/tcp" == k)).getLast?
        with _ | tl
      · have hne : k ≠ (pairContainer t ++ "/tcp") := by
          intro hh
          rw [hh] at hk
          simp at hk
        exact jsObjGet_set_other _ _ _ _ hne
      · rfl
    · have hkeq : pairContainer t ++ "/tcp" = k := eq_of_beq hk
      rw [List.filter_cons_of_pos (by simp [hk]), hih]
      rcases hl : (ts.filter (fun x => pairContainer x ++ "/tcp" == k))
        with _ | ⟨a, l2⟩
      · simp only [List.getLast?_singleton]
        rw [← hkeq]
        exact jsObjGet_set_same _ _ _
      · rw [List.getLast?_cons_cons]
        rcases hg : (a :: l2).getLast? with _ | tl
        · exact absurd (List.getLast?_eq_none_iff.mp hg) (by simp)
        · rfl

/-- C6 (amended): for every regex-valid ports string, every token
host:container yields the exposed-ports key container/tcp, and the
port-bindings entry for container/tcp is the single-element list holding
the host side (original string form) of the LAST token in the string
with that same container port; when the container ports are pairwise
distinct each token therefore gets exactly its own host; in particular
80:8080 yields exactly the exposed-ports key 8080/tcp and the
port-bindings entry 8080/tcp to the list holding HostPort 80. -/
theorem C6_port_translation (s : String) (mf : PortMaps)
    (hreg : portRegexTest s = true)
    (hok : processPorts s { ExposedPorts := [], PortBindings := [] } = .ok mf) :
    (∀ t ∈ jsSplit s ',',
      (jsObjGet mf.ExposedPorts (pairContainer t ++ "/tcp")).isSome = true ∧
      jsObjGet mf.PortBindings (pairContainer t ++ "/tcp")
        = (lastHostFor (jsSplit s ',') (pairContainer t)).map (fun h => [h]) ∧
      (lastHostFor (jsSplit s ',') (pairContainer t)).isSome = true) ∧
    (((jsSplit s ',').map pairContainer).Nodup →
      ∀ t ∈ jsSplit s ',',
        jsObjGet mf.PortBindings (pairContainer t ++ "/tcp") = some [pairHost t]) ∧
    processPorts "80:8080" { ExposedPorts := [], PortBindings := [] }
      = .ok { ExposedPorts := [("8080/tcp", ())], PortBindings := [("8080/tcp", ["80"])] } := by
  unfold portRegexTest at hreg
  unfold processPorts at hok
  have hfilter : ∀ c : String,
      (jsSplit s ',').filter (fun x => pairContainer x ++ "/tcp" == c ++ "/tcp")
        = (jsSplit s ',').filter (fun x => pairContainer x == c) := by
    intro c
    congr 1
    funext x
    exact beq_append_right (pairContainer x) c "/tcp"
  refine ⟨?_, ?_, rfl⟩
  · intro t ht
    have hlast := processTokens_bindings_last (jsSplit s ',')
      (pairContainer t ++ "/tcp") _ _ hreg hok
    rw [hfilter (pairContainer t)] at hlast
    have hmem : t ∈ (jsSplit s ',').filter (fun x => pairContainer x == pairContainer t) :=
      List.mem_filter.mpr ⟨ht, by simp⟩
    have hne : (jsSplit s ',').filter (fun x => pairContainer x == pairContainer t) ≠ [] := by
      intro hnil
      rw [hnil] at hmem
      simp at hmem
    rcases hg : ((jsSplit s ',').filter
        (fun x => pairContainer x == pairContainer t)).getLast? with _ | tl
    · exact absurd (List.getLast?_eq_none_iff.mp hg) hne
    · rw [hg] at hlast
      refine ⟨processTokens_exposed _ _ _ _ hreg hok (Or.inr ⟨t, ht, rfl⟩), ?_, ?_⟩
      · rw [hlast]
        simp [lastHostFor, hg]
      · simp [lastHostFor, hg]
  · intro hnd t ht
    rcases processTokens_bindings _ (pairContainer t ++ "/tcp") _ _ hreg hok with
      ⟨_, hnone⟩ | ⟨t2, ht2, hkey, hval⟩
    · exact absurd rfl (hnone t ht)
    · have ht2t : t2 = t :=
        List.inj_on_of_nodup_map hnd ht2 ht (str_append_right_cancel hkey)
      rw [ht2t] at hval
      exact hval

def c6MF : PortMaps := {
  ExposedPorts := [("8080/tcp", ()), ("8443/tcp", ())]
  PortBindings := [("8080/tcp", ["80"]), ("8443/tcp", ["443"])] }

theorem C6_port_translation_witness :
    portRegexTest "80:8080,443:8443" = true ∧
    ((∀ t ∈ jsSplit "80:8080,443:8443" ',',
      (jsObjGet c6MF.ExposedPorts (pairContainer t ++ "/tcp")).isSome = true ∧
      jsObjGet c6MF.PortBindings (pairContainer t ++ "/tcp")
        = (lastHostFor (jsSplit "80:8080,443:8443" ',') (pairContainer t)).map
            (fun h => [h]) ∧
      (lastHostFor (jsSplit "80:8080,443:8443" ',') (pairContainer t)).isSome = true) ∧
    (((jsSplit "80:8080,443:8443" ',').map pairContainer).Nodup →
      ∀ t ∈ jsSplit "80:8080,443:8443" ',',
        jsObjGet c6MF.PortBindings (pairContainer t ++ "/tcp") = some [pairHost t]) ∧
    processPorts "80:8080" { ExposedPorts := [], PortBindings := [] }
      = .ok { ExposedPorts := [("8080/tcp", ())], PortBindings := [("8080/tcp", ["80"])] }) :=
  ⟨by decide, C6_port_translation "80:8080,443:8443" c6MF (by decide) rfl⟩

/-- C9: a store write occurs only in runs in which every step before the
persistence update succeeded: the instance fetch, the node-id check, the
image-name extraction, the node fetch, the container existence check, the
payload build and the redeploy call all returned successfully.
Contrapositively, every run that terminates at one of those earlier
failures issues no dbSet effect, leaving the three persisted keys
untouched. -/
theorem C9_writes_only_after_full_pipeline
    (id image memory cpu ports name user primary ru un ip : String) (w : WorldEnv)
    (h : hasDbSet
      (handleRedeploy id image memory cpu ports name user primary ru un ip w).2 = true) :
    ∃ (inst : InputInstance) (nf : InputNode) (node : NodeRec)
      (shortimage : String) (respData : RemoteResponse) (reqData : RequestData),
      w.instanceRec = some inst ∧ inst.Node = some nf ∧ jsFalsyOpt nf.id = false ∧
      extractParen image = some shortimage ∧ w.nodeRec = some node ∧
      w.containerCheckData = .ok true ∧
      prepareRequestData shortimage memory cpu ports name node id inst.ContainerId
        inst.Env w.imagesForPrepare = .ok reqData ∧
      w.redeployResult = .ok respData := by
  cases h1 : w.instanceRec with
  | none => simp only [handleRedeploy, h1, hasDbSet] at h; simp at h
  | some inst =>
  cases h2 : inst.Node with
  | none => simp only [handleRedeploy, h1, h2, hasDbSet] at h; simp at h
  | some nf =>
  rcases h3 : jsFalsyOpt nf.id with _ | _
  case true => simp only [handleRedeploy, h1, h2, h3, hasDbSet] at h; simp at h
  case false =>
  cases h4 : extractParen image with
  | none => simp only [handleRedeploy, h1, h2, h3, h4, hasDbSet] at h; simp at h
  | some shortimage =>
  cases h5 : w.nodeRec with
  | none => simp only [handleRedeploy, h1, h2, h3, h4, h5, hasDbSet] at h; simp at h
  | some node =>
  cases h6 : w.containerCheckData with
  | error msg => simp only [handleRedeploy, h1, h2, h3, h4, h5, h6, hasDbSet] at h; simp at h
  | ok b =>
  cases b with
  | false => simp only [handleRedeploy, h1, h2, h3, h4, h5, h6, hasDbSet] at h; simp at h
  | true =>
  cases h7 : prepareRequestData shortimage memory cpu ports name node id
      inst.ContainerId inst.Env w.imagesForPrepare with
  | error e => simp only [handleRedeploy, h1, h2, h3, h4, h5, h6, h7, hasDbSet] at h; simp at h
  | ok reqData =>
  cases h8 : w.redeployResult with
  | error e => simp only [handleRedeploy, h1, h2, h3, h4, h5, h6, h7, h8, hasDbSet] at h; simp at h
  | ok respData =>
  exact ⟨inst, nf, node, shortimage, respData, reqData,
    rfl, h2, h3, rfl, rfl, rfl, h7, rfl⟩

theorem C9_writes_only_after_full_pipeline_witness :
    ∃ (inst : InputInstance) (nf : InputNode) (node : NodeRec)
      (shortimage : String) (respData : RemoteResponse) (reqData : RequestData),
      cWok.instanceRec = some inst ∧ inst.Node = some nf ∧ jsFalsyOpt nf.id = false ∧
      extractParen "X (img)" = some shortimage ∧ cWok.nodeRec = some node ∧
      cWok.containerCheckData = .ok true ∧
      prepareRequestData shortimage "512" "1" "80:8080" "n" node "i1" inst.ContainerId
        inst.Env cWok.imagesForPrepare = .ok reqData ∧
      cWok.redeployResult = .ok respData :=
  C9_writes_only_after_full_pipeline "i1" "X (img)" "512" "1" "80:8080" "n" "u1" "true"
    "admin" "adm" "ip" cWok (by decide)
